import Mathlib

/-!
# Verification of the advanced-caching starter kit's cache-policy logic

This development embeds the cache-policy logic of
`src/index.js` (the `afterSend` after-send callback and its declared
body-transform callback) and the readthrough-cache engine behaviour the
callback plugs into, and proves the spec's testable properties about them.

Conventions:
* Body bytes are `List Nat` (each entry a byte value; no arithmetic overflows
  anywhere, so plain `Nat` is adequate).
* JavaScript `Headers` objects are association lists with case-insensitive
  (ASCII-lowercased) name lookup, mirroring header-name normalization.
* Fallible JavaScript operations (`JSON.parse`, property access on `null`)
  are embedded as `Except String` values; a `.error` models a thrown
  exception.
-/

namespace AdvancedCaching

/-! ## Bytes and text -/

/-- A body is a sequence of bytes. -/
abbrev Bytes := List Nat

/-- ASCII lowercasing of a single character, as applied to HTTP header
names (header names are ASCII). -/
def lowerChar (c : Char) : Char :=
  if 'A' ≤ c ∧ c ≤ 'Z' then Char.ofNat (c.toNat + 32) else c

/-- Header-name normalization: ASCII-lowercase the whole name, mirroring
the case-insensitive name handling of JavaScript `Headers`. -/
def normName (s : String) : String := String.mk (s.data.map lowerChar)

/-! ## The `Headers` map

Modelled as an association list of (name, value) pairs. `hget`/`hhas`/`hset`
mirror `Headers.prototype.get`/`has`/`set`: lookup is case-insensitive on
names, `get` returns `none` (JS `null`) when absent, and `set` replaces any
existing entries for the name. Relative ordering of distinct names is not
observable through `hget`/`hhas`, so `hset` placing the fresh pair in front
is an unobservable simplification. -/

/-- A JavaScript `Headers` object: an association list of name/value pairs. -/
abbrev Headers := List (String × String)

/-- `headers.get(name)`: value of the first entry whose normalized name
matches, or `none` (JS `null`). -/
def hget (hs : Headers) (name : String) : Option String :=
  (hs.find? fun p => normName p.1 == normName name).map Prod.snd

/-- `headers.has(name)`. -/
def hhas (hs : Headers) (name : String) : Bool :=
  (hget hs name).isSome

/-- `headers.set(name, value)`: remove all entries for the name, add one. -/
def hset (hs : Headers) (name value : String) : Headers :=
  (name, value) :: hs.filter fun p => !(normName p.1 == normName name)

/-! ## UTF-8 (`TextEncoder` / `TextDecoder`)

`textEncode` is the standard UTF-8 encoding of a string.  `textDecode`
models `new TextDecoder().decode(bytes)` in its default non-fatal mode:
well-formed sequences decode to their code points and ill-formed bytes
become U+FFFD replacement characters.  (The exact number of replacement
characters emitted for a multi-byte ill-formed sequence differs from the
WHATWG "maximal subpart" rule — this model consumes one byte per
replacement — which is unobservable for the well-formed inputs the
properties below exercise.) -/

/-- The U+FFFD replacement character. -/
def replacementChar : Char := '�'

/-- Is `b` a UTF-8 continuation byte (`0x80`–`0xBF`)? -/
def isCont (b : Nat) : Bool := decide (0x80 ≤ b ∧ b ≤ 0xBF)

/-- Do `b, b1` start a well-formed two-byte UTF-8 sequence? -/
def utf8Two (b b1 : Nat) : Bool :=
  decide (0xC2 ≤ b ∧ b ≤ 0xDF) && isCont b1

/-- Do `b, b1` start a well-formed three-byte UTF-8 sequence (overlong
and surrogate encodings excluded)? -/
def utf8Three (b b1 : Nat) : Bool :=
  (decide (b = 0xE0) && decide (0xA0 ≤ b1 ∧ b1 ≤ 0xBF)) ||
  (decide (0xE1 ≤ b ∧ b ≤ 0xEC) && isCont b1) ||
  (decide (b = 0xED) && decide (0x80 ≤ b1 ∧ b1 ≤ 0x9F)) ||
  (decide (0xEE ≤ b ∧ b ≤ 0xEF) && isCont b1)

/-- Do `b, b1` start a well-formed four-byte UTF-8 sequence (overlong and
out-of-range encodings excluded)? -/
def utf8Four (b b1 : Nat) : Bool :=
  (decide (b = 0xF0) && decide (0x90 ≤ b1 ∧ b1 ≤ 0xBF)) ||
  (decide (0xF1 ≤ b ∧ b ≤ 0xF3) && isCont b1) ||
  (decide (b = 0xF4) && decide (0x80 ≤ b1 ∧ b1 ≤ 0x8F))

/-- Code point of a two-byte sequence. -/
def cp2 (b b1 : Nat) : Nat := (b - 0xC0) * 64 + (b1 - 0x80)

/-- Code point of a three-byte sequence. -/
def cp3 (b b1 b2 : Nat) : Nat :=
  (b - 0xE0) * 4096 + (b1 - 0x80) * 64 + (b2 - 0x80)

/-- Code point of a four-byte sequence. -/
def cp4 (b b1 b2 b3 : Nat) : Nat :=
  (b - 0xF0) * 262144 + (b1 - 0x80) * 4096 + (b2 - 0x80) * 64 + (b3 - 0x80)

/-- UTF-8 decoding with U+FFFD replacement for ill-formed bytes. -/
def utf8DecodeChars : List Nat → List Char
  | [] => []
  | [b] =>
    if b < 0x80 then [Char.ofNat b] else [replacementChar]
  | [b, b1] =>
    if b < 0x80 then Char.ofNat b :: utf8DecodeChars [b1]
    else if utf8Two b b1 then [Char.ofNat (cp2 b b1)]
    else replacementChar :: utf8DecodeChars [b1]
  | [b, b1, b2] =>
    if b < 0x80 then Char.ofNat b :: utf8DecodeChars [b1, b2]
    else if utf8Two b b1 then Char.ofNat (cp2 b b1) :: utf8DecodeChars [b2]
    else if utf8Three b b1 && isCont b2 then [Char.ofNat (cp3 b b1 b2)]
    else replacementChar :: utf8DecodeChars [b1, b2]
  | b :: b1 :: b2 :: b3 :: rest =>
    if b < 0x80 then Char.ofNat b :: utf8DecodeChars (b1 :: b2 :: b3 :: rest)
    else if utf8Two b b1 then Char.ofNat (cp2 b b1) :: utf8DecodeChars (b2 :: b3 :: rest)
    else if utf8Three b b1 && isCont b2 then
      Char.ofNat (cp3 b b1 b2) :: utf8DecodeChars (b3 :: rest)
    else if utf8Four b b1 && isCont b2 && isCont b3 then
      Char.ofNat (cp4 b b1 b2 b3) :: utf8DecodeChars rest
    else replacementChar :: utf8DecodeChars (b1 :: b2 :: b3 :: rest)

/-- `new TextDecoder().decode(bytes)` (UTF-8, non-fatal mode). -/
def textDecode (bs : Bytes) : String := String.mk (utf8DecodeChars bs)

/-- UTF-8 encoding of a single character. -/
def utf8EncodeChar (c : Char) : Bytes :=
  let n := c.toNat
  if n < 0x80 then [n]
  else if n < 0x800 then [0xC0 + n / 64, 0x80 + n % 64]
  else if n < 0x10000 then [0xE0 + n / 4096, 0x80 + n / 64 % 64, 0x80 + n % 64]
  else [0xF0 + n / 262144, 0x80 + n / 4096 % 64, 0x80 + n / 64 % 64, 0x80 + n % 64]

/-- `new TextEncoder().encode(s)` (UTF-8). -/
def textEncode (s : String) : Bytes := s.data.flatMap utf8EncodeChar

example : textDecode (textEncode "Ann Lee") = "Ann Lee" := by decide

/-! ## JSON values and `JSON.parse`

`Json` is the value space produced by `JSON.parse`.  Numbers keep their
source text (`raw`): JavaScript re-renders numbers through binary
floating point, a detail none of the verified properties observe, so the
model keeps the lossless source form.  `jsonParse` is a recursive-descent
parser for the JSON grammar (RFC 8259): values, objects, arrays, strings
with escapes, numbers, `true`/`false`/`null`, with the four JSON
whitespace characters.  A `.error` result models a thrown `SyntaxError`.
Recursion is driven by a fuel parameter so that the definitions are
structurally recursive; the initial fuel exceeds any possible nesting
depth of the input. -/

/-- A parsed JSON value. -/
inductive Json where
  | null
  | bool (b : Bool)
  | num (raw : String)
  | str (s : String)
  | arr (elems : List Json)
  | obj (members : List (String × Json))

/-- The four JSON whitespace characters. -/
def isJsonWs (c : Char) : Bool := c = ' ' || c = '\t' || c = '\n' || c = '\r'

/-- Drop leading JSON whitespace. -/
def skipWs : List Char → List Char
  | [] => []
  | c :: cs => if isJsonWs c then skipWs cs else c :: cs

/-- Value of a hexadecimal digit. -/
def hexVal (c : Char) : Option Nat :=
  if '0' ≤ c ∧ c ≤ '9' then some (c.toNat - '0'.toNat)
  else if 'a' ≤ c ∧ c ≤ 'f' then some (c.toNat - 'a'.toNat + 10)
  else if 'A' ≤ c ∧ c ≤ 'F' then some (c.toNat - 'A'.toNat + 10)
  else none

/-- Combine four hex digit values into a code unit. -/
def hex4 (a b c d : Nat) : Nat := ((a * 16 + b) * 16 + c) * 16 + d

/-- The single-character string escapes of JSON. -/
def escChar (c : Char) : Option Char :=
  if c = '"' then some '"'
  else if c = '\\' then some '\\'
  else if c = '/' then some '/'
  else if c = 'b' then some (Char.ofNat 8)
  else if c = 'f' then some (Char.ofNat 12)
  else if c = 'n' then some '\n'
  else if c = 'r' then some '\r'
  else if c = 't' then some '\t'
  else none

/-- Is `n` a UTF-16 high surrogate? -/
def isHighSur (n : Nat) : Bool := decide (0xD800 ≤ n ∧ n ≤ 0xDBFF)

/-- Is `n` a UTF-16 low surrogate? -/
def isLowSur (n : Nat) : Bool := decide (0xDC00 ≤ n ∧ n ≤ 0xDFFF)

/-- Character for a `\uXXXX` code unit that does not take part in a
surrogate pair.  JavaScript strings can hold lone surrogates but Lean
strings cannot, so a lone surrogate becomes U+FFFD (observable only
through `\u`-escaped surrogates, which no verified property uses). -/
def codeUnitChar (n : Nat) : Char :=
  if isHighSur n || isLowSur n then replacementChar else Char.ofNat n

/-- Body of a JSON string literal after the opening quote: returns the
decoded characters and the remaining input after the closing quote. -/
def parseStringChars : List Char → Except String (List Char × List Char)
  | [] => .error "unterminated string literal"
  | '"' :: rest => .ok ([], rest)
  | '\\' :: 'u' :: a :: b :: c :: d :: '\\' :: 'u' :: a2 :: b2 :: c2 :: d2 :: rest =>
    match hexVal a, hexVal b, hexVal c, hexVal d with
    | some ha, some hb, some hc, some hd =>
      match hexVal a2, hexVal b2, hexVal c2, hexVal d2 with
      | some ha2, some hb2, some hc2, some hd2 =>
        let n := hex4 ha hb hc hd
        let n2 := hex4 ha2 hb2 hc2 hd2
        if isHighSur n && isLowSur n2 then
          match parseStringChars rest with
          | .ok (cs, r) =>
            .ok (Char.ofNat (0x10000 + (n - 0xD800) * 1024 + (n2 - 0xDC00)) :: cs, r)
          | .error e => .error e
        else
          match parseStringChars rest with
          | .ok (cs, r) => .ok (codeUnitChar n :: codeUnitChar n2 :: cs, r)
          | .error e => .error e
      | _, _, _, _ => .error "invalid unicode escape"
    | _, _, _, _ => .error "invalid unicode escape"
  | '\\' :: 'u' :: a :: b :: c :: d :: rest =>
    match hexVal a, hexVal b, hexVal c, hexVal d with
    | some ha, some hb, some hc, some hd =>
      match parseStringChars rest with
      | .ok (cs, r) => .ok (codeUnitChar (hex4 ha hb hc hd) :: cs, r)
      | .error e => .error e
    | _, _, _, _ => .error "invalid unicode escape"
  | '\\' :: e :: rest =>
    match escChar e with
    | some c =>
      match parseStringChars rest with
      | .ok (cs, r) => .ok (c :: cs, r)
      | .error e2 => .error e2
    | none => .error "invalid escape character"
  | c :: rest =>
    if c.toNat < 0x20 then .error "control character in string literal"
    else
      match parseStringChars rest with
      | .ok (cs, r) => .ok (c :: cs, r)
      | .error e => .error e

/-- Longest digit run at the front of the input. -/
def takeDigits : List Char → List Char × List Char
  | [] => ([], [])
  | c :: cs =>
    if c.isDigit then
      let (ds, r) := takeDigits cs
      (c :: ds, r)
    else ([], c :: cs)

/-- Exponent part of a number literal after an `e`/`E` marker. -/
def parseExpPart (frac : List Char) (em : Char) (r : List Char) :
    Except String (List Char × List Char) :=
  let (sgn, r1) :=
    match r with
    | '+' :: r2 => (['+'], r2)
    | '-' :: r2 => (['-'], r2)
    | _ => (([] : List Char), r)
  let (ds, r2) := takeDigits r1
  if ds = [] then .error "expected digit in exponent"
  else .ok (frac ++ em :: sgn ++ ds, r2)

/-- Optional fraction and exponent parts of a number literal. -/
def parseFracExp (cs : List Char) : Except String (List Char × List Char) :=
  let (frac, cs1) :=
    match cs with
    | '.' :: r =>
      let (ds, r2) := takeDigits r
      (('.' :: ds : List Char), r2)
    | _ => (([] : List Char), cs)
  if frac = ['.'] then .error "expected digit after decimal point"
  else
    match cs1 with
    | 'e' :: r => parseExpPart frac 'e' r
    | 'E' :: r => parseExpPart frac 'E' r
    | _ => .ok (frac, cs1)

/-- A JSON number literal (sign, integer part with the leading-zero rule,
optional fraction, optional exponent); returns its source text. -/
def parseNumber (cs : List Char) : Except String (String × List Char) :=
  let (sign, cs1) :=
    match cs with
    | '-' :: r => (['-'], r)
    | _ => (([] : List Char), cs)
  match cs1 with
  | '0' :: r =>
    match parseFracExp r with
    | .ok (tail, rest) => .ok (String.mk (sign ++ '0' :: tail), rest)
    | .error e => .error e
  | c :: r =>
    if c.isDigit then
      let (ds, r2) := takeDigits r
      match parseFracExp r2 with
      | .ok (tail, rest) => .ok (String.mk (sign ++ c :: ds ++ tail), rest)
      | .error e => .error e
    else .error "expected digit"
  | [] => .error "expected digit"

mutual

/-- One JSON value (leading whitespace allowed); fuel-driven recursion. -/
def parseValue : Nat → List Char → Except String (Json × List Char)
  | 0, _ => .error "input too deeply nested"
  | fuel + 1, cs =>
    match skipWs cs with
    | [] => .error "unexpected end of input"
    | c :: rest =>
      if c = '{' then
        match skipWs rest with
        | '}' :: r => .ok (.obj [], r)
        | rest2 =>
          match parseMember fuel rest2 with
          | .error e => .error e
          | .ok (m, r1) =>
            match parseObjRest fuel r1 with
            | .error e => .error e
            | .ok (ms, r2) => .ok (.obj (m :: ms), r2)
      else if c = '[' then
        match skipWs rest with
        | ']' :: r => .ok (.arr [], r)
        | rest2 =>
          match parseValue fuel rest2 with
          | .error e => .error e
          | .ok (v, r1) =>
            match parseArrayRest fuel r1 with
            | .error e => .error e
            | .ok (vs, r2) => .ok (.arr (v :: vs), r2)
      else if c = '"' then
        match parseStringChars rest with
        | .error e => .error e
        | .ok (body, r) => .ok (.str (String.mk body), r)
      else if c = 't' then
        match rest with
        | 'r' :: 'u' :: 'e' :: r => .ok (.bool true, r)
        | _ => .error "invalid literal"
      else if c = 'f' then
        match rest with
        | 'a' :: 'l' :: 's' :: 'e' :: r => .ok (.bool false, r)
        | _ => .error "invalid literal"
      else if c = 'n' then
        match rest with
        | 'u' :: 'l' :: 'l' :: r => .ok (.null, r)
        | _ => .error "invalid literal"
      else if c = '-' ∨ c.isDigit then
        match parseNumber (c :: rest) with
        | .error e => .error e
        | .ok (raw, r) => .ok (.num raw, r)
      else .error "unexpected character"

/-- Array items after the first: `, value`* then `]`. -/
def parseArrayRest : Nat → List Char → Except String (List Json × List Char)
  | 0, _ => .error "input too deeply nested"
  | fuel + 1, cs =>
    match skipWs cs with
    | ']' :: r => .ok ([], r)
    | ',' :: r =>
      match parseValue fuel r with
      | .error e => .error e
      | .ok (v, r1) =>
        match parseArrayRest fuel r1 with
        | .error e => .error e
        | .ok (vs, r2) => .ok (v :: vs, r2)
    | _ => .error "expected comma or closing bracket"

/-- One object member: `"key" : value` (with surrounding whitespace). -/
def parseMember : Nat → List Char → Except String ((String × Json) × List Char)
  | 0, _ => .error "input too deeply nested"
  | fuel + 1, cs =>
    match skipWs cs with
    | '"' :: rest =>
      match parseStringChars rest with
      | .error e => .error e
      | .ok (key, r1) =>
        match skipWs r1 with
        | ':' :: r2 =>
          match parseValue fuel r2 with
          | .error e => .error e
          | .ok (v, r3) => .ok ((String.mk key, v), r3)
        | _ => .error "expected colon"
    | _ => .error "expected string key"

/-- Object members after the first: `, member`* then the closing brace. -/
def parseObjRest : Nat → List Char →
    Except String (List (String × Json) × List Char)
  | 0, _ => .error "input too deeply nested"
  | fuel + 1, cs =>
    match skipWs cs with
    | '}' :: r => .ok ([], r)
    | ',' :: r =>
      match parseMember fuel r with
      | .error e => .error e
      | .ok (m, r1) =>
        match parseObjRest fuel r1 with
        | .error e => .error e
        | .ok (ms, r2) => .ok (m :: ms, r2)
    | _ => .error "expected comma or closing brace"

end

/-- `JSON.parse(s)`: parse one value, then require only trailing
whitespace.  The initial fuel `2 * length + 8` exceeds the nesting depth of
any input: every recursive descent step first consumes at least one input
character. -/
def jsonParse (s : String) : Except String Json :=
  match parseValue (2 * s.data.length + 8) s.data with
  | .error e => .error e
  | .ok (v, rest) =>
    match skipWs rest with
    | [] => .ok v
    | _ => .error "unexpected trailing characters"

/-! ## JavaScript property access and string conversion

`jsProp j k` models the JavaScript expression `j[k]` on a value produced
by `JSON.parse`: indexing `null` throws a `TypeError`; an object yields
its member (the last one on duplicate keys, as `JSON.parse` keeps the
last) or `undefined`; any other value yields `undefined` for the
non-numeric, non-built-in keys used here (`firstName`, `lastName`).
`undefined` is `none`.

`jsDisplayFuel` models the template-literal conversion `String(v)`:
numbers display as their source text (JavaScript re-renders them through
binary floating point — unobservable in the verified properties, which
only interpolate strings), arrays join their elements with commas with
`null` displaying as the empty string inside an array, objects display as
`"[object Object]"`.  The fuel bounds the recursion depth through nested
arrays; callers pass a bound exceeding the value's nesting depth. -/

/-- Member lookup where the last occurrence of a duplicated key wins. -/
def lookupLast (ms : List (String × Json)) (k : String) : Option Json :=
  ms.foldl (fun acc m => if m.1 == k then some m.2 else acc) none

/-- The JavaScript expression `j[k]` (see section comment). -/
def jsProp (j : Json) (k : String) : Except String (Option Json) :=
  match j with
  | .null => .error "TypeError: cannot read properties of null"
  | .obj ms => .ok (lookupLast ms k)
  | _ => .ok none

/-- Template-literal string conversion of a JSON value (see section
comment). -/
def jsDisplayFuel : Nat → Json → String
  | 0, _ => ""
  | _ + 1, .null => "null"
  | _ + 1, .bool true => "true"
  | _ + 1, .bool false => "false"
  | _ + 1, .num raw => raw
  | _ + 1, .str s => s
  | fuel + 1, .arr xs =>
    String.intercalate "," (xs.map fun x =>
      match x with
      | .null => ""
      | x2 => jsDisplayFuel fuel x2)
  | _ + 1, .obj _ => "[object Object]"

/-- Template-literal conversion of a possibly-`undefined` value, with
`undefined` displaying as `"undefined"`. -/
def jsToString (fuel : Nat) : Option Json → String
  | none => "undefined"
  | some j => jsDisplayFuel fuel j

/-! ## The declared body-transform callback

Embedding of the `bodyTransformFn` closure declared by the after-send
callback (`src/index.js`, the `application/json` branch):

* `const str = new TextDecoder().decode(bytes)`  →  `textDecode`
* `const json = JSON.parse(str)`                 →  `jsonParse`
* `json['firstName']`, `json['lastName']`        →  `jsProp`
* the `<div>...</div>` template literal          →  `jsToString` pieces
* `new TextEncoder().encode(html)`               →  `textEncode`

A `.error` result models a thrown exception escaping the callback (the
only throwing steps are `JSON.parse` and property access on `null`).  The
display fuel `str.data.length + 1` exceeds the nesting depth of any value
parsed from `str`, so it is never exhausted. -/

/-- The body-transform callback: JSON body bytes to an HTML snippet. -/
def bodyTransformFn (bytes : Bytes) : Except String Bytes :=
  let str := textDecode bytes
  match jsonParse str with
  | .error e => .error e
  | .ok json =>
    match jsProp json "firstName" with
    | .error e => .error e
    | .ok firstName =>
      match jsProp json "lastName" with
      | .error e => .error e
      | .ok lastName =>
        let fuel := str.data.length + 1
        let html :=
          "<div>" ++ jsToString fuel firstName ++ " " ++
            jsToString fuel lastName ++ "</div>"
        .ok (textEncode html)

example :
    bodyTransformFn
        (textEncode "\x7b\"firstName\":\"Ann\",\"lastName\":\"Lee\"\x7d") =
      .ok (textEncode "<div>Ann Lee</div>") := by rfl

example :
    bodyTransformFn (textEncode "not json") = .error "invalid literal" := by rfl

/-! ## The after-send callback -/

/-- The `CandidateResponse` passed to the after-send callback: headers and
the cache-policy `ttl` field are readable and writable, the body is not
reachable from the callback.  `ttl = none` means the freshness lifetime
has not been overridden. -/
structure CandidateResponse where
  status : Nat
  headers : Headers
  ttl : Option Nat
deriving DecidableEq

/-- The value of the `cache` property of the object returned by the
after-send callback: JavaScript `undefined`, `false`, or `'uncacheable'`. -/
inductive CacheVal where
  | undef
  | skipVal
  | uncacheable
deriving DecidableEq

/-- The object returned by the after-send callback:
`{ cache, bodyTransformFn }`. -/
structure AfterSendResult where
  cache : CacheVal
  bodyTransformFn : Option (Bytes → Except String Bytes)

/-- The after-send callback (`afterSend(resp)` in `src/index.js`),
returning the mutated response together with the returned object:

1. `switch (resp.headers.get('Content-Type'))`: `'image'` sets
   `resp.ttl = 67`, `'text/html'` sets `resp.ttl = 321`,
   `'application/xml'` sets `cache = false`, and the default branch sets
   `resp.ttl = 2` (the `switch` compares with strict equality, so a
   missing header — JS `null` — takes the default branch);
2. `if (resp.headers.has('my-private-header')) cache = 'uncacheable'`;
3. `if (resp.headers.get('Content-Type') === 'application/json')`:
   rewrite the `Content-Type` header to `'text/html'` and declare
   `bodyTransformFn`.

The `switch` is embedded as a strict-equality chain over the mutually
exclusive cases. -/
def afterSend (resp : CandidateResponse) : CandidateResponse × AfterSendResult :=
  let ct := hget resp.headers "Content-Type"
  let (resp1, cache1) : CandidateResponse × CacheVal :=
    if ct = some "image" then ({ resp with ttl := some 67 }, .undef)
    else if ct = some "text/html" then ({ resp with ttl := some 321 }, .undef)
    else if ct = some "application/xml" then (resp, .skipVal)
    else ({ resp with ttl := some 2 }, .undef)
  let cache2 :=
    if hhas resp1.headers "my-private-header" then CacheVal.uncacheable else cache1
  let (resp2, btf) : CandidateResponse × Option (Bytes → Except String Bytes) :=
    if hget resp1.headers "Content-Type" = some "application/json" then
      ({ resp1 with headers := hset resp1.headers "Content-Type" "text/html" },
        some bodyTransformFn)
    else (resp1, none)
  (resp2, { cache := cache2, bodyTransformFn := btf })

/-! ## The readthrough-cache engine

The engine that invokes the callbacks is platform code, not part of this
repository; the two definitions below are modelled from the spec (§4.2,
§4.3, §4.4, §7) and carry `Modelled from the spec:` markers. -/

/-- A persisted cache entry: headers, freshness lifetime, body bytes. -/
structure CachedEntry where
  headers : Headers
  lifetime : Option Nat
  body : Bytes
deriving DecidableEq

/-- The engine's cache decision for a fresh response. -/
inductive Decision where
  | store
  | skip
  | hitForPass
deriving DecidableEq

/-- Outcome of processing a fresh (non-revalidation) origin response:
the decision, what was persisted (if anything), and the client-visible
status and body. -/
structure FreshResult where
  decision : Decision
  stored : Option CachedEntry
  clientStatus : Nat
  clientBody : Bytes
deriving DecidableEq

/-- Modelled from the spec: the readthrough-cache engine's fresh-response
path (Response Policy Engine §4.2, Body Transform Executor §4.4, error
taxonomy §7(c)), which is platform code not present in `src/`.  The
engine runs the after-send callback, then:

* `cache = 'uncacheable'` marks hit-for-pass, persists no entry, and the
  client receives the untransformed response;
* `cache = false` skips caching, the client receives the untransformed
  response;
* `cache` undefined means default caching: the response is stored with
  the callback-assigned headers and lifetime; a declared body transform
  is applied to the fresh body and the transformed bytes are persisted
  and served; if the transform throws, the decision falls back to skip
  and the client receives the original body and status unmodified. -/
def processFresh (resp : CandidateResponse) (originBody : Bytes) : FreshResult :=
  let resp2 := (afterSend resp).1
  let r := (afterSend resp).2
  match r.cache with
  | .uncacheable =>
    { decision := .hitForPass, stored := none,
      clientStatus := resp.status, clientBody := originBody }
  | .skipVal =>
    { decision := .skip, stored := none,
      clientStatus := resp.status, clientBody := originBody }
  | .undef =>
    match r.bodyTransformFn with
    | none =>
      { decision := .store,
        stored := some ⟨resp2.headers, resp2.ttl, originBody⟩,
        clientStatus := resp.status, clientBody := originBody }
    | some tf =>
      match tf originBody with
      | .ok newBody =>
        { decision := .store,
          stored := some ⟨resp2.headers, resp2.ttl, newBody⟩,
          clientStatus := resp.status, clientBody := newBody }
      | .error _ =>
        { decision := .skip, stored := none,
          clientStatus := resp.status, clientBody := originBody }

/-- Modelled from the spec: the Revalidation Coordinator (§4.3), which is
platform code not present in `src/`.  On a not-modified (304) response
the engine still runs the after-send callback and replaces the cached
entry's headers and freshness lifetime with the callback-mutated values,
but keeps the previously cached body and never invokes the declared
body transform — the transform argument is deliberately unused, which is
exactly the coordinator's guarantee. -/
def processNotModifiedWith (_declaredTransform : Option (Bytes → Except String Bytes))
    (entry : CachedEntry) (resp : CandidateResponse) : CachedEntry :=
  let resp2 := (afterSend resp).1
  { headers := resp2.headers, lifetime := resp2.ttl, body := entry.body }

/-- The not-modified path as the engine runs it: the transform handed to
the coordinator is the one the after-send callback just declared. -/
def processNotModified (entry : CachedEntry) (resp : CandidateResponse) : CachedEntry :=
  processNotModifiedWith (afterSend resp).2.bodyTransformFn entry resp

/-! ## Helper lemmas characterizing the after-send callback -/

theorem hget_hset_self (hs : Headers) (n v : String) :
    hget (hset hs n v) n = some v := by
  unfold hget hset
  rw [List.find?_cons_of_pos]
  · rfl
  · simp

theorem afterSend_ttl (resp : CandidateResponse) :
    (afterSend resp).1.ttl =
      (if hget resp.headers "Content-Type" = some "image" then some 67
       else if hget resp.headers "Content-Type" = some "text/html" then some 321
       else if hget resp.headers "Content-Type" = some "application/xml" then
         resp.ttl
       else some 2) := by
  by_cases h1 : hget resp.headers "Content-Type" = some "image" <;>
    by_cases h2 : hget resp.headers "Content-Type" = some "text/html" <;>
    by_cases h3 : hget resp.headers "Content-Type" = some "application/xml" <;>
    by_cases h4 : hget resp.headers "Content-Type" = some "application/json" <;>
    simp [afterSend, h1, h2, h3, h4]

theorem afterSend_headers (resp : CandidateResponse) :
    (afterSend resp).1.headers =
      (if hget resp.headers "Content-Type" = some "application/json" then
        hset resp.headers "Content-Type" "text/html"
       else resp.headers) := by
  by_cases h1 : hget resp.headers "Content-Type" = some "image" <;>
    by_cases h2 : hget resp.headers "Content-Type" = some "text/html" <;>
    by_cases h3 : hget resp.headers "Content-Type" = some "application/xml" <;>
    by_cases h4 : hget resp.headers "Content-Type" = some "application/json" <;>
    simp [afterSend, h1, h2, h3, h4]

theorem afterSend_cache (resp : CandidateResponse) :
    (afterSend resp).2.cache =
      (if hhas resp.headers "my-private-header" then CacheVal.uncacheable
       else if hget resp.headers "Content-Type" = some "application/xml" then
         CacheVal.skipVal
       else CacheVal.undef) := by
  by_cases h0 : hhas resp.headers "my-private-header" = true <;>
    by_cases h1 : hget resp.headers "Content-Type" = some "image" <;>
    by_cases h2 : hget resp.headers "Content-Type" = some "text/html" <;>
    by_cases h3 : hget resp.headers "Content-Type" = some "application/xml" <;>
    by_cases h4 : hget resp.headers "Content-Type" = some "application/json" <;>
    simp [afterSend, h0, h1, h2, h3, h4]

theorem afterSend_btf (resp : CandidateResponse) :
    (afterSend resp).2.bodyTransformFn =
      (if hget resp.headers "Content-Type" = some "application/json" then
        some bodyTransformFn
       else none) := by
  by_cases h1 : hget resp.headers "Content-Type" = some "image" <;>
    by_cases h2 : hget resp.headers "Content-Type" = some "text/html" <;>
    by_cases h3 : hget resp.headers "Content-Type" = some "application/xml" <;>
    by_cases h4 : hget resp.headers "Content-Type" = some "application/json" <;>
    simp [afterSend, h1, h2, h3, h4]

/-! ## Concrete fixtures for witnesses and counterexamples -/

/-- A candidate response with status 200, the given headers, and no
pre-assigned freshness lifetime. -/
def respOf (hs : Headers) : CandidateResponse :=
  { status := 200, headers := hs, ttl := none }

def rImage : CandidateResponse := respOf [("Content-Type", "image")]

def rHtml : CandidateResponse := respOf [("Content-Type", "text/html")]

def rXml : CandidateResponse := respOf [("Content-Type", "application/xml")]

def rJson : CandidateResponse := respOf [("Content-Type", "application/json")]

def rPdf : CandidateResponse := respOf [("Content-Type", "application/pdf")]

def rHtmlPrivate : CandidateResponse :=
  respOf [("Content-Type", "text/html"), ("my-private-header", "1")]

def rXmlPrivate : CandidateResponse :=
  respOf [("Content-Type", "application/xml"), ("my-private-header", "1")]

def rJsonPrivate : CandidateResponse :=
  respOf [("Content-Type", "application/json"), ("my-private-header", "1")]

/-- UTF-8 bytes of the scenario-3 JSON body
`\x7b"firstName":"Ann","lastName":"Lee"\x7d`. -/
def bodyAnnLee : Bytes :=
  textEncode "\x7b\"firstName\":\"Ann\",\"lastName\":\"Lee\"\x7d"

/-- UTF-8 bytes of a payload `JSON.parse` rejects. -/
def bodyNotJson : Bytes := textEncode "not json"

/-! ## The claims -/

/-- C1: For every not-modified (304 revalidation) response, the declared body
transform is not invoked — the Revalidation Coordinator's result is the same
whatever transform is declared — and the previously cached body bytes are
bit-identical before and after processing, while the entry's headers and
freshness lifetime are replaced with the new (callback-processed) response's
values. -/
theorem revalidation_preserves_cached_body (entry : CachedEntry)
    (resp : CandidateResponse) :
    (processNotModified entry resp).body = entry.body
    ∧ (processNotModified entry resp).headers = (afterSend resp).1.headers
    ∧ (processNotModified entry resp).lifetime = (afterSend resp).1.ttl
    ∧ ∀ tf tf2, processNotModifiedWith tf entry resp =
        processNotModifiedWith tf2 entry resp :=
  ⟨rfl, rfl, rfl, fun _ _ => rfl⟩

/-- C2: The after-send callback assigns the freshness lifetime from the
policy table keyed by the response's `Content-Type`: `image` yields ttl 67,
`text/html` yields ttl 321, and every `Content-Type` matching none of the
table's cases (whose third case, `application/xml`, maps to a skip decision
rather than a lifetime) yields the default ttl 2. -/
theorem ttl_policy_table (resp : CandidateResponse) :
    (hget resp.headers "Content-Type" = some "image" →
      (afterSend resp).1.ttl = some 67)
    ∧ (hget resp.headers "Content-Type" = some "text/html" →
      (afterSend resp).1.ttl = some 321)
    ∧ (hget resp.headers "Content-Type" ≠ some "image" →
       hget resp.headers "Content-Type" ≠ some "text/html" →
       hget resp.headers "Content-Type" ≠ some "application/xml" →
      (afterSend resp).1.ttl = some 2) := by
  refine ⟨fun h => ?_, fun h => ?_, fun h1 h2 h3 => ?_⟩
  · rw [afterSend_ttl]; simp [h]
  · rw [afterSend_ttl]; simp [h]
  · rw [afterSend_ttl]; simp [h1, h2, h3]

/-- Witness for `ttl_policy_table` at concrete responses, `image`,
`text/html` and an unmapped type. -/
theorem ttl_policy_table_witness :
    (afterSend rImage).1.ttl = some 67
    ∧ (afterSend rHtml).1.ttl = some 321
    ∧ (afterSend rPdf).1.ttl = some 2 :=
  ⟨(ttl_policy_table rImage).1 (by decide),
   (ttl_policy_table rHtml).2.1 (by decide),
   (ttl_policy_table rPdf).2.2 (by decide) (by decide) (by decide)⟩

/-- C3 counterexample: an `application/xml` response that also carries
`my-private-header` gets cache decision `'uncacheable'` (hit-for-pass),
not skip — refuting the claim's unrestricted universal statement. -/
theorem xml_skip_counterexample :
    hget rXmlPrivate.headers "Content-Type" = some "application/xml"
    ∧ (afterSend rXmlPrivate).2.cache ≠ CacheVal.skipVal
    ∧ (afterSend rXmlPrivate).2.cache = CacheVal.uncacheable :=
  ⟨by decide, by decide, by decide⟩

/-- C3 as amended: for every origin response whose `Content-Type` is
`application/xml` and which does not carry `my-private-header`, the
after-send callback's cache decision is skip (`cache: false`), regardless
of lifetime, and nothing is persisted. -/
theorem xml_means_skip (resp : CandidateResponse) (body : Bytes)
    (hct : hget resp.headers "Content-Type" = some "application/xml")
    (hpriv : hhas resp.headers "my-private-header" = false) :
    (afterSend resp).2.cache = CacheVal.skipVal
    ∧ (processFresh resp body).decision = Decision.skip
    ∧ (processFresh resp body).stored = none := by
  have hc : (afterSend resp).2.cache = CacheVal.skipVal := by
    rw [afterSend_cache]; simp [hct, hpriv]
  refine ⟨hc, ?_, ?_⟩ <;> simp [processFresh, hc]

/-- Witness for `xml_means_skip` at a concrete `application/xml`
response. -/
theorem xml_means_skip_witness :
    (afterSend rXml).2.cache = CacheVal.skipVal
    ∧ (processFresh rXml []).decision = Decision.skip
    ∧ (processFresh rXml []).stored = none :=
  xml_means_skip rXml [] (by decide) (by decide)

/-- C4: For every origin response carrying `my-private-header`, the
after-send callback's decision is hit-for-pass (`cache: 'uncacheable'`)
whatever the Content-Type dispatch decided, while the content-type
branch's ttl assignment still occurs as usual. -/
theorem private_header_forces_hit_for_pass (resp : CandidateResponse)
    (hpriv : hhas resp.headers "my-private-header" = true) :
    (afterSend resp).2.cache = CacheVal.uncacheable
    ∧ (hget resp.headers "Content-Type" = some "image" →
      (afterSend resp).1.ttl = some 67)
    ∧ (hget resp.headers "Content-Type" = some "text/html" →
      (afterSend resp).1.ttl = some 321)
    ∧ (hget resp.headers "Content-Type" ≠ some "image" →
       hget resp.headers "Content-Type" ≠ some "text/html" →
       hget resp.headers "Content-Type" ≠ some "application/xml" →
      (afterSend resp).1.ttl = some 2) := by
  refine ⟨?_, fun h => ?_, fun h => ?_, fun h1 h2 h3 => ?_⟩
  · rw [afterSend_cache]; simp [hpriv]
  · rw [afterSend_ttl]; simp [h]
  · rw [afterSend_ttl]; simp [h]
  · rw [afterSend_ttl]; simp [h1, h2, h3]

/-- Witness for `private_header_forces_hit_for_pass`: scenario 4,
`text/html` with the private header — hit-for-pass overrides the store
decision, ttl 321 still assigned. -/
theorem private_header_forces_hit_for_pass_witness :
    (afterSend rHtmlPrivate).2.cache = CacheVal.uncacheable
    ∧ (afterSend rHtmlPrivate).1.ttl = some 321 :=
  ⟨(private_header_forces_hit_for_pass rHtmlPrivate (by decide)).1,
   (private_header_forces_hit_for_pass rHtmlPrivate (by decide)).2.2.1
     (by decide)⟩

/-- C5: For every origin response, the after-send callback returns a
non-undefined `bodyTransformFn` exactly when it also rewrites the
response's `Content-Type` header from `application/json` to `text/html`;
when no transform is declared, the headers are left untouched. -/
theorem transform_iff_content_type_rewrite (resp : CandidateResponse) :
    ((afterSend resp).2.bodyTransformFn.isSome = true ↔
      (hget resp.headers "Content-Type" = some "application/json"
       ∧ hget (afterSend resp).1.headers "Content-Type" = some "text/html"))
    ∧ ((afterSend resp).2.bodyTransformFn = none →
      (afterSend resp).1.headers = resp.headers) := by
  by_cases h : hget resp.headers "Content-Type" = some "application/json"
  · refine ⟨⟨fun _ => ⟨h, ?_⟩, fun _ => ?_⟩, fun hn => ?_⟩
    · rw [afterSend_headers, if_pos h]; exact hget_hset_self _ _ _
    · rw [afterSend_btf]; simp [h]
    · rw [afterSend_btf] at hn; simp [h] at hn
  · refine ⟨⟨fun hs => ?_, fun hand => absurd hand.1 h⟩, fun _ => ?_⟩
    · rw [afterSend_btf] at hs; simp [h] at hs
    · rw [afterSend_headers, if_neg h]

/-- Witness for `transform_iff_content_type_rewrite`: the transform is
declared for an `application/json` response; a `text/html` response
declares none and keeps its headers. -/
theorem transform_iff_content_type_rewrite_witness :
    (afterSend rJson).2.bodyTransformFn.isSome = true
    ∧ (afterSend rHtml).1.headers = rHtml.headers :=
  ⟨(transform_iff_content_type_rewrite rJson).1.mpr ⟨by decide, by decide⟩,
   (transform_iff_content_type_rewrite rHtml).2 rfl⟩

/-- C6: Scenario 3 — on an `application/json` response with body bytes
encoding `\x7b"firstName":"Ann","lastName":"Lee"\x7d`, the declared body
transform returns the UTF-8 bytes of `<div>Ann Lee</div>`, and the stored
entry carries body `<div>Ann Lee</div>` under `Content-Type: text/html`
with the default lifetime. -/
theorem json_transform_scenario :
    bodyTransformFn bodyAnnLee = .ok (textEncode "<div>Ann Lee</div>")
    ∧ (processFresh rJson bodyAnnLee).decision = Decision.store
    ∧ (processFresh rJson bodyAnnLee).stored =
        some { headers := [("Content-Type", "text/html")], lifetime := some 2,
               body := textEncode "<div>Ann Lee</div>" } :=
  ⟨rfl, rfl, rfl⟩

/-- C7: For every origin response that is neither `application/xml` nor
carries `my-private-header`, the after-send callback returns `cache`
undefined (decision not set) — a value distinct from the explicit `false`
(skip) and `'uncacheable'` (hit-for-pass) — and undefined means default
caching behaviour: the engine stores the response with the
callback-assigned headers and lifetime. -/
theorem undefined_cache_means_default_store (resp : CandidateResponse)
    (body : Bytes)
    (hct : hget resp.headers "Content-Type" ≠ some "application/xml")
    (hpriv : hhas resp.headers "my-private-header" = false) :
    (afterSend resp).2.cache = CacheVal.undef
    ∧ CacheVal.undef ≠ CacheVal.skipVal
    ∧ CacheVal.undef ≠ CacheVal.uncacheable
    ∧ ((afterSend resp).2.bodyTransformFn = none →
        (processFresh resp body).decision = Decision.store
        ∧ (processFresh resp body).stored =
            some { headers := (afterSend resp).1.headers,
                   lifetime := (afterSend resp).1.ttl, body := body }) := by
  have hc : (afterSend resp).2.cache = CacheVal.undef := by
    rw [afterSend_cache]; simp [hct, hpriv]
  refine ⟨hc, by decide, by decide, fun hb => ⟨?_, ?_⟩⟩ <;>
    simp [processFresh, hc, hb]

/-- Witness for `undefined_cache_means_default_store` at a concrete
`text/html` response. -/
theorem undefined_cache_means_default_store_witness :
    (afterSend rHtml).2.cache = CacheVal.undef
    ∧ (processFresh rHtml (textEncode "page")).decision = Decision.store :=
  ⟨(undefined_cache_means_default_store rHtml (textEncode "page")
      (by decide) (by decide)).1,
   ((undefined_cache_means_default_store rHtml (textEncode "page")
      (by decide) (by decide)).2.2.2 rfl).1⟩

/-- C8: On every body input on which the declared body transform throws
(the response being one that declares it: `application/json`, no private
header), the engine fails closed: the decision falls back to skip,
nothing is persisted, and the client-visible body and status are the
original ones, unaffected. -/
theorem transform_failure_fails_closed (resp : CandidateResponse)
    (body : Bytes) (e : String)
    (hct : hget resp.headers "Content-Type" = some "application/json")
    (hpriv : hhas resp.headers "my-private-header" = false)
    (hfail : bodyTransformFn body = .error e) :
    (processFresh resp body).decision = Decision.skip
    ∧ (processFresh resp body).stored = none
    ∧ (processFresh resp body).clientBody = body
    ∧ (processFresh resp body).clientStatus = resp.status := by
  have hc : (afterSend resp).2.cache = CacheVal.undef := by
    rw [afterSend_cache]; simp [hct, hpriv]
  have hb : (afterSend resp).2.bodyTransformFn = some bodyTransformFn := by
    rw [afterSend_btf]; simp [hct]
  refine ⟨?_, ?_, ?_, ?_⟩ <;> simp [processFresh, hc, hb, hfail]

/-- Witness for `transform_failure_fails_closed`: the bytes of
`"not json"` make `JSON.parse` throw inside the transform. -/
theorem transform_failure_fails_closed_witness :
    (processFresh rJson bodyNotJson).decision = Decision.skip
    ∧ (processFresh rJson bodyNotJson).stored = none
    ∧ (processFresh rJson bodyNotJson).clientBody = bodyNotJson
    ∧ (processFresh rJson bodyNotJson).clientStatus = rJson.status :=
  transform_failure_fails_closed rJson bodyNotJson "invalid literal"
    (by decide) (by decide) rfl

/-- C9: For every `application/json` response without the private header,
the after-send callback assigns the default ttl 2 — not the `text/html`
lifetime 321 — because the switch reads the original `Content-Type`
before the header is rewritten to `text/html`. -/
theorem json_ttl_from_original_content_type (resp : CandidateResponse)
    (hct : hget resp.headers "Content-Type" = some "application/json")
    (_hpriv : hhas resp.headers "my-private-header" = false) :
    (afterSend resp).1.ttl = some 2
    ∧ (afterSend resp).1.ttl ≠ some 321
    ∧ hget (afterSend resp).1.headers "Content-Type" = some "text/html" := by
  have ht : (afterSend resp).1.ttl = some 2 := by
    rw [afterSend_ttl]; simp [hct]
  refine ⟨ht, by simp [ht], ?_⟩
  rw [afterSend_headers, if_pos hct]; exact hget_hset_self _ _ _

/-- Witness for `json_ttl_from_original_content_type` at a concrete
`application/json` response. -/
theorem json_ttl_from_original_content_type_witness :
    (afterSend rJson).1.ttl = some 2
    ∧ (afterSend rJson).1.ttl ≠ some 321
    ∧ hget (afterSend rJson).1.headers "Content-Type" = some "text/html" :=
  json_ttl_from_original_content_type rJson (by decide) (by decide)

/-- C10: For every `application/json` response that also carries
`my-private-header`, the after-send callback still declares the body
transform and still rewrites `Content-Type` to `text/html`, even though
it returns the hit-for-pass decision. -/
theorem private_json_transform_still_declared (resp : CandidateResponse)
    (hct : hget resp.headers "Content-Type" = some "application/json")
    (hpriv : hhas resp.headers "my-private-header" = true) :
    (afterSend resp).2.cache = CacheVal.uncacheable
    ∧ (afterSend resp).2.bodyTransformFn.isSome = true
    ∧ hget (afterSend resp).1.headers "Content-Type" = some "text/html" := by
  refine ⟨?_, ?_, ?_⟩
  · rw [afterSend_cache]; simp [hpriv]
  · rw [afterSend_btf]; simp [hct]
  · rw [afterSend_headers, if_pos hct]; exact hget_hset_self _ _ _

/-- Witness for `private_json_transform_still_declared` at a concrete
`application/json` response carrying the private header. -/
theorem private_json_transform_still_declared_witness :
    (afterSend rJsonPrivate).2.cache = CacheVal.uncacheable
    ∧ (afterSend rJsonPrivate).2.bodyTransformFn.isSome = true
    ∧ hget (afterSend rJsonPrivate).1.headers "Content-Type" =
        some "text/html" :=
  private_json_transform_still_declared rJsonPrivate (by decide) (by decide)

end AdvancedCaching
